import Mathlib

/-!
Shallow embedding of the Table Timer sketch (src/timer-sketch/timer-sketch.ino).

C `int` globals are modelled as `Int` fields of a state record; C `unsigned long`
millisecond values are `Nat` kept below `2^32`, with unsigned subtraction
modelled explicitly modulo `2^32`.  C truncating division and remainder on
`int` are `Int.tdiv` / `Int.tmod`.  Functions that in the sketch write to the
motor pin or blit to the display return, next to the new state, a description
of those external effects (a list of events), so that timing and effect
properties can be stated.
-/

set_option maxRecDepth 100000

namespace TableTimer

/-- FRAME_COUNT from the sketch: frames per animation. -/
def FRAME_COUNT : Int := 28

/-- NUM_ANIMATIONS from the sketch: number of work sub-animations cycled hourly. -/
def NUM_ANIMATIONS : Int := 6

/-- SECONDS_PER_MINUTE from the sketch. -/
def SECONDS_PER_MINUTE : Int := 60

/-- HALF_HOURS_PER_DAY from the sketch (24 hours in half-hour units). -/
def HALF_HOURS_PER_DAY : Int := 48

/-- HALF_MINUTES_PER_HOUR from the sketch (60 minutes in half-minute units). -/
def HALF_MINUTES_PER_HOUR : Int := 120

/-- MILLIS_PER_SECOND from the sketch. -/
def MILLIS_PER_SECOND : Nat := 1000

/-- DISPLAY_UPDATE_INTERVAL_MS from the sketch: renderer rate limit. -/
def DISPLAY_UPDATE_INTERVAL_MS : Nat := 100

/-- MOTOR_BUZZ_DURATION_MS from the sketch. -/
def MOTOR_BUZZ_DURATION_MS : Nat := 70

/-- MOTOR_PAUSE_DURATION_MS from the sketch. -/
def MOTOR_PAUSE_DURATION_MS : Nat := 70

/-- MOTOR_CYCLE_PAUSE_MS from the sketch. -/
def MOTOR_CYCLE_PAUSE_MS : Nat := 60

/-- MOTOR_BUZZ_CYCLES from the sketch. -/
def MOTOR_BUZZ_CYCLES : Nat := 3

/-- MOTOR_BUZZ_GROUPS from the sketch. -/
def MOTOR_BUZZ_GROUPS : Nat := 5

/-- debounceDelay from the sketch (milliseconds). -/
def debounceDelay : Nat := 250

/-- Unsigned 32-bit subtraction `a - b` as computed on `unsigned long`
(the sketch targets a 32-bit RP2040). -/
def usub32 (a b : Nat) : Nat := (a + 2 ^ 32 - b % 2 ^ 32) % 2 ^ 32

/-- The global mutable state of the sketch: time variables, animation
variables, encoder/button state, and the static rate-limit timestamp of
`updateDisplay`. -/
@[ext]
structure St where
  hours_half : Int
  minutes_half : Int
  seconds : Int
  animation_index : Int
  last_animation : Int
  frame : Int
  setHours : Bool
  lastCLK : Bool
  lastMillis : Nat
  lastButtonTime : Nat
  lastDraw : Nat
deriving DecidableEq, Repr

/-- The global initial values of the sketch (globals at their initializers;
`lastCLK` is whatever level the encoder CLK line reads in `setup`). -/
def initialState (clk0 : Bool) : St :=
  { hours_half := 24, minutes_half := 0, seconds := 0,
    animation_index := 0, last_animation := 1, frame := 0,
    setHours := false, lastCLK := clk0,
    lastMillis := 0, lastButtonTime := 0, lastDraw := 0 }

/-- External effects performed by `updateTime`: an hourly motor buzz, or a
forced display refresh. -/
inductive Act
  | buzz
  | draw
deriving DecidableEq, Repr

/-- The core of `selectAnimationByTime` as a function of the three globals it
reads (`hours_half`, `minutes_half`, and the incoming `animation_index` it
overwrites rule by rule).  Sequential ifs, later rules win. -/
def selectAnimCore (hours_half minutes_half animation_index : Int) : Int :=
  let currentHour := hours_half.tdiv 2
  let currentMinute := minutes_half.tdiv 2
  let ai := animation_index
  let ai := if minutes_half ≥ 10 then 0 else ai
  let ai := if currentHour = 12 then 6 else ai
  let ai := if currentHour = 16 ∧ currentMinute ≤ 15 then 7 else ai
  let ai := if currentHour ≥ 19 ∨ currentHour < 8 then 8 else ai
  let ai := if 8 ≤ currentHour ∧ currentHour ≤ 9 then 9 else ai
  ai

/-- `selectAnimationByTime` from the sketch: rewrites `animation_index` from
the current time. -/
def selectAnimationByTime (s : St) : St :=
  { s with animation_index := selectAnimCore s.hours_half s.minutes_half s.animation_index }

/-- `updateDisplay` from the sketch, at a given `millis()` reading `now`.
If fewer than `DISPLAY_UPDATE_INTERVAL_MS` ms have passed since the last
successful draw it is a no-op; otherwise it draws `frames[frame]` (the frame
index drawn is returned as the second component) and then advances the frame
cursor using the current `animation_index`. -/
def updateDisplay (now : Nat) (s : St) : St × Option Int :=
  if usub32 now s.lastDraw < DISPLAY_UPDATE_INTERVAL_MS then (s, none)
  else
    ({ s with lastDraw := now,
              frame := (s.frame + 1).tmod FRAME_COUNT + s.animation_index * FRAME_COUNT },
     some s.frame)

/-- `updateTime` from the sketch, at a given `millis()` reading `now`.
Processes at most one second boundary per call; on a minute cascade adds two
half-minutes; on an hour cascade wraps the hour, cycles `last_animation`,
recomputes the frame cursor, forces a display refresh, and (during work hours)
requests the motor buzz; finally reselects the animation from the time.
The returned list records the external effects (buzz request). -/
def updateTime (now : Nat) (s : St) : St × List Act :=
  if usub32 now s.lastMillis ≥ MILLIS_PER_SECOND then
    let s1 := { s with lastMillis := (s.lastMillis + MILLIS_PER_SECOND) % 2 ^ 32,
                       seconds := s.seconds + 1 }
    let s2 := if s1.seconds ≥ SECONDS_PER_MINUTE then
                { s1 with seconds := 0, minutes_half := s1.minutes_half + 2 }
              else s1
    let p :=
      if s2.minutes_half ≥ HALF_MINUTES_PER_HOUR then
        let s3 := { s2 with minutes_half := 0,
                            hours_half := (s2.hours_half + 2).tmod HALF_HOURS_PER_DAY }
        let la := s3.last_animation.tmod NUM_ANIMATIONS + 1
        let s4 := { s3 with last_animation := la, animation_index := la,
                            frame := (s3.frame + 1).tmod FRAME_COUNT + la * FRAME_COUNT }
        let s5 := (updateDisplay now s4).1
        let currentHour := s5.hours_half.tdiv 2
        if currentHour ≥ 9 ∧ currentHour ≤ 19 then (s5, [Act.draw, Act.buzz])
        else (s5, [Act.draw])
      else (s2, [])
    (selectAnimationByTime p.1, p.2)
  else (s, [])

/-- `adjustTime` from the sketch: in hour mode, wrap the half-hour counter
modulo a day; in minute mode, add the raw step with two clamp checks. -/
def adjustTime (delta : Int) (s : St) : St :=
  if s.setHours then
    { s with hours_half := (s.hours_half + delta + HALF_HOURS_PER_DAY).tmod HALF_HOURS_PER_DAY }
  else
    let m := s.minutes_half + delta
    let m := if m < 0 then HALF_MINUTES_PER_HOUR - 1 else m
    let m := if m ≥ HALF_MINUTES_PER_HOUR then 0 else m
    { s with minutes_half := m }

/-- `readEncoder` from the sketch, given the sampled levels of the CLK, DT and
SW lines (`true` = HIGH; the lines are active-low, so `sw = false` means the
button reads pressed) and the `millis()` reading `now`. -/
def readEncoder (clk dt sw : Bool) (now : Nat) (s : St) : St :=
  let s1 := if clk ≠ s.lastCLK then
              (if dt ≠ clk then adjustTime 1 s else adjustTime (-1) s)
            else s
  let s2 := { s1 with lastCLK := clk }
  if sw = false then
    if usub32 now s2.lastButtonTime > debounceDelay then
      { s2 with seconds := 0, setHours := !s2.setHours, lastButtonTime := now }
    else s2
  else s2

/-- Events of the motor-buzz pattern: pin writes, display-refresh calls, and
`delay(ms)` waits. -/
inductive MotorEv
  | high
  | low
  | draw
  | wait (ms : Nat)
deriving DecidableEq, Repr

/-- One cycle of the inner loop of `triggerMotorBuzz`: motor HIGH, refresh,
delay 70, refresh, delay 70, motor LOW, refresh, delay 70. -/
def buzzCycle : List MotorEv :=
  [MotorEv.high, MotorEv.draw, MotorEv.wait MOTOR_BUZZ_DURATION_MS,
   MotorEv.draw, MotorEv.wait MOTOR_BUZZ_DURATION_MS,
   MotorEv.low, MotorEv.draw, MotorEv.wait MOTOR_PAUSE_DURATION_MS]

/-- One group of `triggerMotorBuzz`: `MOTOR_BUZZ_CYCLES` cycles followed by a
refresh and the group pause. -/
def buzzGroup : List MotorEv :=
  (List.replicate MOTOR_BUZZ_CYCLES buzzCycle).flatten ++
    [MotorEv.draw, MotorEv.wait MOTOR_CYCLE_PAUSE_MS]

/-- `triggerMotorBuzz` from the sketch as its event trace:
`MOTOR_BUZZ_GROUPS` groups. -/
def triggerMotorBuzz : List MotorEv :=
  (List.replicate MOTOR_BUZZ_GROUPS buzzGroup).flatten

/-- Total wall-clock duration of a motor event trace: the sum of its delays. -/
def totalDuration : List MotorEv → Nat
  | [] => 0
  | MotorEv.wait n :: r => n + totalDuration r
  | _ :: r => totalDuration r

/-- Total time the motor pin is HIGH during a trace, starting from the given
pin level. -/
def onTime (level : Bool) : List MotorEv → Nat
  | [] => 0
  | MotorEv.high :: r => onTime true r
  | MotorEv.low :: r => onTime false r
  | MotorEv.wait n :: r => (if level then n else 0) + onTime level r
  | MotorEv.draw :: r => onTime level r

/-- The minute-increment step of `updateTime` (lines 115-121 of the sketch):
add two half-minutes, wrapping to zero at the top of the range; the flag
reports whether the hour-rollover branch fired. -/
def minuteStep (m : Int) : Int × Bool :=
  let m := m + 2
  if m ≥ HALF_MINUTES_PER_HOUR then (0, true) else (m, false)

/-- `minuteStep` iterated, counting hour rollovers. -/
def minuteIter : Nat → Int → Int × Nat
  | 0, m => (m, 0)
  | n + 1, m =>
    let p := minuteStep m
    let q := minuteIter n p.1
    (q.1, q.2 + if p.2 then 1 else 0)

/-- Claim C1, counterexample: one `triggerMotorBuzz` run lasts 3450 ms, not
2400 ms, and the motor is HIGH for 2100 ms, not the 15 × 70 = 1050 ms the
claim states: each cycle holds the pin HIGH across two 70 ms delays. -/
theorem C1_counterexample :
    totalDuration triggerMotorBuzz = 3450 ∧ (3450 : Nat) ≠ 2400 ∧
      onTime false triggerMotorBuzz = 2100 ∧ (2100 : Nat) ≠ 15 * 70 := by
  decide

/-- Claim C1 (amended): a single `triggerMotorBuzz` runs 5 groups of 3 cycles;
in each cycle the motor is ON for two 70 ms intervals (140 ms, with a display
refresh between them) and then OFF for 70 ms, with a 60 ms pause per group;
the pin goes HIGH exactly 15 times, the motor is HIGH for 30 intervals of
70 ms (2100 ms), and the total wall-clock duration is 3450 ms. -/
theorem C1_buzz_pattern :
    totalDuration triggerMotorBuzz = 3450 ∧
      onTime false triggerMotorBuzz = 30 * 70 ∧
      (triggerMotorBuzz.filter (· = MotorEv.high)).length =
        MOTOR_BUZZ_GROUPS * MOTOR_BUZZ_CYCLES := by
  decide

/-- Claim C4, counterexample: in minute-edit mode from `minutes_half = 0`,
`adjustTime 1` yields `minutes_half = 1`, not the `2 * delta = 2` the claim
states: the sketch adds the raw step, not twice the step. -/
theorem C4_counterexample :
    (adjustTime 1 (initialState true)).minutes_half = 1 ∧ (1 : Int) ≠ 2 * 1 := by
  decide

/-- Claim C4 (amended): in minute-edit mode each encoder step applies the raw
step in half-minute units, i.e. `adjustTime delta` changes `minutes_half` by
`delta` (half a minute per step), with manual wraparound clamps: a negative
result is set to the top of range (119) and a result at or above the maximum
is set to zero. -/
theorem C4_minute_adjust (s : St) (hs : s.setHours = false)
    (hm0 : 0 ≤ s.minutes_half) (hm1 : s.minutes_half < HALF_MINUTES_PER_HOUR) :
    (s.minutes_half < HALF_MINUTES_PER_HOUR - 1 →
        (adjustTime 1 s).minutes_half = s.minutes_half + 1) ∧
      (s.minutes_half = HALF_MINUTES_PER_HOUR - 1 →
        (adjustTime 1 s).minutes_half = 0) ∧
      (0 < s.minutes_half →
        (adjustTime (-1) s).minutes_half = s.minutes_half - 1) ∧
      (s.minutes_half = 0 →
        (adjustTime (-1) s).minutes_half = HALF_MINUTES_PER_HOUR - 1) := by
  have e : HALF_MINUTES_PER_HOUR = 120 := rfl
  rw [e] at hm1
  rw [e]
  refine ⟨fun h => ?_, fun h => ?_, fun h => ?_, fun h => ?_⟩ <;>
    simp [adjustTime, hs, e] <;> split_ifs <;> omega

/-- Claim C4, witness at a concrete state: one step up from 0 gives 1, one
step down from 0 wraps to 119. -/
theorem C4_witness :
    (adjustTime 1 (initialState true)).minutes_half =
        (initialState true).minutes_half + 1 ∧
      (adjustTime (-1) (initialState true)).minutes_half =
        HALF_MINUTES_PER_HOUR - 1 :=
  ⟨(C4_minute_adjust (initialState true) rfl (by decide) (by decide)).1 (by decide),
   (C4_minute_adjust (initialState true) rfl (by decide) (by decide)).2.2.2 rfl⟩

/-- Claim C5, counterexample: two states agreeing on `hours_half = 20`
(10 oclock), `minutes_half = 6` and `last_animation`, but with prior
`animation_index` 0 versus 3, give different results: no selection rule fires
in the first five minutes of hour 10, so the prior index leaks through. -/
theorem C5_counterexample :
    (selectAnimationByTime
        { initialState true with hours_half := 20, minutes_half := 6 }).animation_index ≠
      (selectAnimationByTime
        { initialState true with hours_half := 20, minutes_half := 6,
                                 animation_index := 3 }).animation_index := by
  decide

/-- Claim C5 (amended): `selectAnimationByTime` is a pure, deterministic
function of `hours_half`, `minutes_half` and the prior `animation_index`: any
two states agreeing on those three fields (whatever their `last_animation`,
`seconds`, `frame`, or other fields) yield the same final animation index. -/
theorem C5_deterministic (s t : St) (hh : s.hours_half = t.hours_half)
    (hm : s.minutes_half = t.minutes_half)
    (ha : s.animation_index = t.animation_index) :
    (selectAnimationByTime s).animation_index =
      (selectAnimationByTime t).animation_index := by
  simp [selectAnimationByTime, hh, hm, ha]

/-- Claim C5, witness: two concrete states differing in seconds, frame and
`last_animation` but agreeing on the three determining fields select the same
animation. -/
theorem C5_witness :
    (selectAnimationByTime (initialState true)).animation_index =
      (selectAnimationByTime
        { initialState true with seconds := 30, frame := 50,
                                 last_animation := 4 }).animation_index :=
  C5_deterministic _ _ rfl rfl rfl

/-- Claim C7, counterexample: from the odd value `minutes_half = 1` (reachable
through minute-edit adjustments), sixty minute increments end at 0, not back
at 1. -/
theorem C7_counterexample : (minuteIter 60 1).1 = 0 ∧ (0 : Int) ≠ 1 := by
  decide

/-- Claim C7 (amended): for every even `minutes_half` in [0,120) (the values
the clock itself produces), applying the minute increment of `updateTime`
sixty times returns `minutes_half` to its original value and fires exactly one
hour rollover along the way. -/
theorem C7_minute_cycle (m : Int) (h0 : 0 ≤ m) (h1 : m < HALF_MINUTES_PER_HOUR)
    (h2 : m % 2 = 0) : minuteIter 60 m = (m, 1) := by
  norm_num [HALF_MINUTES_PER_HOUR] at h1
  interval_cases m <;> first | omega | decide

/-- Claim C7, witness at the concrete even value 4. -/
theorem C7_witness : minuteIter 60 4 = (4, 1) :=
  C7_minute_cycle 4 (by decide) (by decide) (by decide)

/-- Claim C6: animation-selection boundary cases.  For any in-range time
representation and any prior animation index: at hour 16 minute 15 the
selection is afternoon-break (7); at hour 16 minute 16 it is the work default
(0); at hour 8 minute 0 it is morning (9); at hour 19 minute 0 it is
evening-night (8). -/
theorem C6_boundaries (h m ai : Int) (hh0 : 0 ≤ h) (_hh1 : h < HALF_HOURS_PER_DAY)
    (hm0 : 0 ≤ m) (_hm1 : m < HALF_MINUTES_PER_HOUR) :
    (h.tdiv 2 = 16 ∧ m.tdiv 2 = 15 → selectAnimCore h m ai = 7) ∧
      (h.tdiv 2 = 16 ∧ m.tdiv 2 = 16 → selectAnimCore h m ai = 0) ∧
      (h.tdiv 2 = 8 ∧ m.tdiv 2 = 0 → selectAnimCore h m ai = 9) ∧
      (h.tdiv 2 = 19 ∧ m.tdiv 2 = 0 → selectAnimCore h m ai = 8) := by
  have th : h.tdiv 2 = h / 2 := Int.tdiv_eq_ediv hh0 (by norm_num)
  have tm : m.tdiv 2 = m / 2 := Int.tdiv_eq_ediv hm0 (by norm_num)
  rw [th, tm]
  refine ⟨fun e => ?_, fun e => ?_, fun e => ?_, fun e => ?_⟩ <;>
    obtain ⟨e1, e2⟩ := e <;>
    simp only [selectAnimCore, th, tm] <;> split_ifs <;> omega

/-- Claim C6, witness at concrete representations of the four boundary
times (both half-unit representatives for 16:15). -/
theorem C6_witness :
    selectAnimCore 32 30 0 = 7 ∧ selectAnimCore 33 31 1 = 7 ∧
      selectAnimCore 32 32 5 = 0 ∧ selectAnimCore 16 0 5 = 9 ∧
      selectAnimCore 38 0 0 = 8 :=
  ⟨(C6_boundaries 32 30 0 (by decide) (by decide) (by decide) (by decide)).1
      ⟨by decide, by decide⟩,
   (C6_boundaries 33 31 1 (by decide) (by decide) (by decide) (by decide)).1
      ⟨by decide, by decide⟩,
   (C6_boundaries 32 32 5 (by decide) (by decide) (by decide) (by decide)).2.1
      ⟨by decide, by decide⟩,
   (C6_boundaries 16 0 5 (by decide) (by decide) (by decide) (by decide)).2.2.1
      ⟨by decide, by decide⟩,
   (C6_boundaries 38 0 0 (by decide) (by decide) (by decide) (by decide)).2.2.2
      ⟨by decide, by decide⟩⟩

/-- Claim C2, counterexample on a reachable loop iteration: from the initial
state, a first loop pass at `millis() = 1000` ticks one second; the hour reads
12, so `selectAnimationByTime` changes `animation_index` from 0 to 6, but the
frame cursor is not recomputed, and the draw performed by `updateDisplay` in
the same iteration (after a no-op `readEncoder`) blits frame 0, which does not
lie in animation 6's frame band [168, 196). -/
theorem C2_counterexample :
    (updateTime 1000 (initialState true)).1.animation_index = 6 ∧
      (initialState true).animation_index = 0 ∧
      (updateDisplay 1000
          (readEncoder true true true 1000
            (updateTime 1000 (initialState true)).1)).2 = some 0 ∧
      ¬ ((6 : Int) * FRAME_COUNT ≤ 0 ∧ (0 : Int) < (6 + 1) * FRAME_COUNT) := by
  decide

/-- Claim C2 (amended): the frame cursor is recomputed only when the cursor
advances (at the end of each successful draw and on hour rollover), not when
`selectAnimationByTime` changes the animation index; consequently the first
draw after a selection change can still blit a frame of the previous
animation's band, but immediately after every successful draw the cursor lies
within the currently selected animation's frame band. -/
theorem C2_cursor_band (now : Nat) (s : St) (hf : 0 ≤ s.frame)
    (hd : ¬ usub32 now s.lastDraw < DISPLAY_UPDATE_INTERVAL_MS) :
    (updateDisplay now s).1.animation_index * FRAME_COUNT ≤
        (updateDisplay now s).1.frame ∧
      (updateDisplay now s).1.frame <
        ((updateDisplay now s).1.animation_index + 1) * FRAME_COUNT := by
  have e : FRAME_COUNT = 28 := rfl
  have h1 : (s.frame + 1).tmod 28 = (s.frame + 1) % 28 :=
    Int.tmod_eq_emod (by omega) (by norm_num)
  simp only [updateDisplay, if_neg hd, h1, e]
  omega

/-- Claim C2, witness: the draw performed from the initial state at
`millis() = 1000` leaves the cursor inside the selected band. -/
theorem C2_witness :
    (updateDisplay 1000 (initialState true)).1.animation_index * FRAME_COUNT ≤
        (updateDisplay 1000 (initialState true)).1.frame ∧
      (updateDisplay 1000 (initialState true)).1.frame <
        ((updateDisplay 1000 (initialState true)).1.animation_index + 1) *
          FRAME_COUNT :=
  C2_cursor_band 1000 (initialState true) (by decide) (by decide)

/-- Claim C10: `adjustTime` modifies only the time field designated by the
edit mode — in hour mode `minutes_half` is untouched, in minute mode
`hours_half` is untouched — and in both modes `seconds`, `animation_index`,
`last_animation`, `frame`, `setHours`, and all encoder/timing state are
unchanged; in particular no animation cycling happens even when the hour wraps
past midnight (and the function requests no motor buzz: its body performs no
external effect at all). -/
theorem C10_only_designated_field (s : St) (delta : Int) :
    (s.setHours = true → (adjustTime delta s).minutes_half = s.minutes_half) ∧
      (s.setHours = false → (adjustTime delta s).hours_half = s.hours_half) ∧
      (adjustTime delta s).seconds = s.seconds ∧
      (adjustTime delta s).animation_index = s.animation_index ∧
      (adjustTime delta s).last_animation = s.last_animation ∧
      (adjustTime delta s).frame = s.frame ∧
      (adjustTime delta s).setHours = s.setHours ∧
      (adjustTime delta s).lastCLK = s.lastCLK ∧
      (adjustTime delta s).lastMillis = s.lastMillis ∧
      (adjustTime delta s).lastButtonTime = s.lastButtonTime ∧
      (adjustTime delta s).lastDraw = s.lastDraw := by
  by_cases h : s.setHours <;> simp [adjustTime, h]

/-- Claim C10, witness: adjusting the hour forward from 23:30 (a wrap past
midnight) leaves the minutes and the frame state untouched. -/
theorem C10_witness :
    (adjustTime 1
        { initialState true with setHours := true, hours_half := 47 }).minutes_half =
        ({ initialState true with setHours := true, hours_half := 47 } : St).minutes_half ∧
      (adjustTime 1
          { initialState true with setHours := true, hours_half := 47 }).frame =
        ({ initialState true with setHours := true, hours_half := 47 } : St).frame :=
  ⟨(C10_only_designated_field _ 1).1 rfl,
   (C10_only_designated_field _ 1).2.2.2.2.2.1⟩

/-- Round trip of the hour-mode wrap arithmetic of `adjustTime`. -/
lemma tmod48_round (x : Int) (hx : 0 ≤ x) (hx48 : x < 48) :
    ((x + 1 + 48).tmod 48 + -1 + 48).tmod 48 = x := by
  have a1 : (x + 1 + 48).tmod 48 = (x + 1 + 48) % 48 :=
    Int.tmod_eq_emod (by omega) (by norm_num)
  rw [a1]
  have a2 : ((x + 1 + 48) % 48 + -1 + 48).tmod 48 =
      ((x + 1 + 48) % 48 + -1 + 48) % 48 :=
    Int.tmod_eq_emod (by omega) (by norm_num)
  rw [a2]; omega

/-- `updateDisplay` never changes the seconds counter. -/
lemma updateDisplay_seconds (now : Nat) (s : St) :
    ((updateDisplay now s).1).seconds = s.seconds := by
  unfold updateDisplay; split_ifs <;> rfl

/-- `updateDisplay` never changes the clock boundary marker. -/
lemma updateDisplay_lastMillis (now : Nat) (s : St) :
    ((updateDisplay now s).1).lastMillis = s.lastMillis := by
  unfold updateDisplay; split_ifs <;> rfl

/-- Claim C8: from any valid state, in either edit mode, `adjustTime 1`
followed by `adjustTime (-1)` returns the state to its original value,
including across the zero/max wrap boundaries. -/
theorem C8_round_trip (s : St) (hh0 : 0 ≤ s.hours_half)
    (hh1 : s.hours_half < HALF_HOURS_PER_DAY) (hm0 : 0 ≤ s.minutes_half)
    (hm1 : s.minutes_half < HALF_MINUTES_PER_HOUR) :
    adjustTime (-1) (adjustTime 1 s) = s := by
  have eH : HALF_HOURS_PER_DAY = (48 : Int) := rfl
  have eM : HALF_MINUTES_PER_HOUR = (120 : Int) := rfl
  rw [eH] at hh1
  rw [eM] at hm1
  by_cases h : s.setHours
  · have key := tmod48_round s.hours_half hh0 hh1
    simp [adjustTime, h, eH, St.ext_iff, key]
  · simp [adjustTime, h, eM, St.ext_iff]
    split_ifs <;> omega

/-- Claim C8, witness at the two wrap boundaries: hour mode at 23:30
(hours_half 47) and minute mode at minutes_half 119. -/
theorem C8_witness :
    adjustTime (-1) (adjustTime 1
        { initialState true with hours_half := 47, setHours := true }) =
        { initialState true with hours_half := 47, setHours := true } ∧
      adjustTime (-1) (adjustTime 1
          { initialState true with minutes_half := 119 }) =
        { initialState true with minutes_half := 119 } :=
  ⟨C8_round_trip _ (by decide) (by decide) (by decide) (by decide),
   C8_round_trip _ (by decide) (by decide) (by decide) (by decide)⟩

/-- Claim C3, counterexample: with the loop starved until `millis() = 3000`
(three seconds elapsed since the last boundary), three rapid calls to
`updateTime` 1 ms apart count 1, 2, then 3 seconds: because the boundary
marker advances by exactly 1000 ms per processed tick, the missed second
boundaries are caught up by the subsequent calls rather than permanently
lost. -/
theorem C3_counterexample :
    (updateTime 3000 (initialState true)).1.seconds = 1 ∧
      (updateTime 3001 (updateTime 3000 (initialState true)).1).1.seconds = 2 ∧
      (updateTime 3002
          (updateTime 3001
            (updateTime 3000 (initialState true)).1).1).1.seconds = 3 := by
  decide

/-- Claim C3 (amended): each call to `updateTime` processes at most one second
boundary (no catch-up loop inside a call, and `seconds` grows by at most 1),
but because the boundary marker is advanced by exactly `MILLIS_PER_SECOND`
rather than reset to `now`, the remaining deficit stays pending: whenever two
or more seconds are owed, a boundary is still owed after the call, so
subsequent calls catch up the missed boundaries one per call; seconds are lost
only while the loop persistently runs slower than one call per second. -/
theorem C3_tick_behavior (s : St) (now : Nat) (hsec : 0 ≤ s.seconds)
    (hl : s.lastMillis < 2 ^ 32) (hn : now < 2 ^ 32) :
    (usub32 now s.lastMillis < MILLIS_PER_SECOND → (updateTime now s).1 = s) ∧
      (updateTime now s).1.seconds ≤ s.seconds + 1 ∧
      (usub32 now s.lastMillis ≥ MILLIS_PER_SECOND →
        (updateTime now s).1.lastMillis =
            (s.lastMillis + MILLIS_PER_SECOND) % 2 ^ 32 ∧
          (usub32 now s.lastMillis ≥ 2 * MILLIS_PER_SECOND →
            usub32 now (updateTime now s).1.lastMillis ≥ MILLIS_PER_SECOND)) := by
  have eS : MILLIS_PER_SECOND = 1000 := rfl
  by_cases h : usub32 now s.lastMillis ≥ MILLIS_PER_SECOND
  · refine ⟨fun hlt => absurd h (by omega), ?_, fun _ => ⟨?_, fun h2 => ?_⟩⟩
    · simp only [updateTime, if_pos h, selectAnimationByTime]
      split_ifs <;> simp [updateDisplay_seconds] <;> omega
    · simp only [updateTime, if_pos h, selectAnimationByTime]
      split_ifs <;> simp [updateDisplay_lastMillis]
    · simp only [updateTime, if_pos h, selectAnimationByTime]
      split_ifs <;> simp [updateDisplay_lastMillis] <;>
        (simp only [usub32, eS] at h2 ⊢; omega)
  · refine ⟨fun _ => ?_, ?_, fun hge => absurd hge h⟩
    · simp [updateTime, h]
    · simp [updateTime, h]

/-- Claim C3, witness: after the starved call at `millis() = 3000` the
boundary marker advanced by exactly one second and at least a full second is
still owed, so the next call will tick again. -/
theorem C3_witness :
    (updateTime 3000 (initialState true)).1.lastMillis =
        ((initialState true).lastMillis + MILLIS_PER_SECOND) % 2 ^ 32 ∧
      usub32 3000 (updateTime 3000 (initialState true)).1.lastMillis ≥
        MILLIS_PER_SECOND :=
  ⟨((C3_tick_behavior (initialState true) 3000 (by decide) (by decide)
        (by decide)).2.2 (by decide)).1,
   ((C3_tick_behavior (initialState true) 3000 (by decide) (by decide)
        (by decide)).2.2 (by decide)).2 (by decide)⟩

/-- Claim C9, counterexample: the debounce comparison is strict
(`millis() - lastButtonTime > 250`), so two presses exactly 250 ms apart
(accepted at 300, attempted at 550) produce only one EditMode toggle, not the
two toggles the claim asserts for presses exactly 250 ms apart. -/
theorem C9_counterexample :
    usub32 550 300 = 250 ∧
      (readEncoder true true false 300 (initialState true)).setHours = true ∧
      (readEncoder true true false 550
          (readEncoder true true false 300 (initialState true))).setHours = true ∧
      ¬ ((true : Bool) = (initialState true).setHours) := by
  decide

/-- Claim C9 (amended): a button press is accepted exactly when the button
reads pressed and strictly more than 250 ms have elapsed since the last
accepted press; an accepted press resets `seconds`, flips `setHours` and
records the timestamp; a second press more than 250 ms later yields a second
toggle and a second seconds reset, while a second press at or before 250 ms is
rejected (one toggle, timestamp unchanged). -/
theorem C9_debounce (s : St) (d : Bool) (t1 t2 : Nat)
    (h1 : usub32 t1 s.lastButtonTime > debounceDelay) :
    ((readEncoder s.lastCLK d false t1 s).setHours = !s.setHours ∧
        (readEncoder s.lastCLK d false t1 s).seconds = 0 ∧
        (readEncoder s.lastCLK d false t1 s).lastButtonTime = t1) ∧
      (usub32 t2 t1 > debounceDelay →
        (readEncoder s.lastCLK d false t2
            (readEncoder s.lastCLK d false t1 s)).setHours = s.setHours ∧
          (readEncoder s.lastCLK d false t2
            (readEncoder s.lastCLK d false t1 s)).seconds = 0) ∧
      (¬ usub32 t2 t1 > debounceDelay →
        (readEncoder s.lastCLK d false t2
            (readEncoder s.lastCLK d false t1 s)).setHours = !s.setHours ∧
          (readEncoder s.lastCLK d false t2
            (readEncoder s.lastCLK d false t1 s)).lastButtonTime = t1) := by
  have e1 : readEncoder s.lastCLK d false t1 s =
      { s with seconds := 0, setHours := !s.setHours, lastButtonTime := t1 } := by
    simp [readEncoder, h1]
  rw [e1]
  refine ⟨⟨rfl, rfl, rfl⟩, fun h2 => ?_, fun h2 => ?_⟩
  · constructor <;> simp [readEncoder, h2]
  · constructor <;> simp [readEncoder, h2]

/-- Claim C9, witness: a press at 300 ms (more than 250 ms after the initial
timestamp 0) is accepted and flips the edit mode. -/
theorem C9_witness :
    (readEncoder (initialState true).lastCLK true false 300
        (initialState true)).setHours = !(initialState true).setHours :=
  (C9_debounce (initialState true) true 300 551 (by decide)).1.1

end TableTimer
